import Mathlib

/-!
# Shallow embedding of the `ql_common` bootstrap/lifecycle wrappers

This file embeds the registry + startup-sequencer + health-monitor +
transaction-helper pattern of the repository's three backend packages
(`mongo`, `redis`, `db`) and its logging facade (`logger`), and proves the
spec's claims about them.

External client libraries (the Mongo driver, go-redis, xorm, zap) are opaque
collaborators: their effectful calls (connect, ping, begin/commit/rollback,
close) are modelled as oracle functions supplied in a `World`/`SessionWorld`
record, and every call the repository code makes is recorded in an explicit
effect trace so that "which call was issued, with which arguments" is visible
in the model.  Go maps are modelled as association lists (`Registry`), one
list order standing for one iteration order of the map.
-/

set_option autoImplicit false

/-- A name → handle registry (the package-level Go map of each backend). -/
abbrev Registry (H : Type) := List (String × H)

/-- Go map lookup, `reg[name]`. -/
def lookupReg {H : Type} : Registry H → String → Option H
  | [], _ => none
  | (m, h) :: rest, n => if m = n then some h else lookupReg rest n

/-- Deadline attached to a context passed to a liveness probe:
`context.Background()` carries no deadline; `context.WithTimeout` carries one. -/
inductive ProbeDeadline where
  | unbounded
  | seconds (s : Nat)
  deriving DecidableEq, Repr

/-- A message accepted by a logging sink, tagged with how it was emitted:
through the zap facade (`info`/`fail`) or through `fmt.Printf` (`printLine`). -/
inductive LogEvent where
  | info (msg name : String)
  | fail (msg name : String)
  | printLine (msg name : String)
  deriving DecidableEq, Repr

/-- Result of one per-entry step of a boot sequencer: the registry after the
step, the trace of effects the step issued, and `some e` when the step
aborted the boot (error return or panic). -/
structure StepRes (H E T : Type) where
  reg : Registry H
  trace : List T
  err : Option E
  deriving DecidableEq, Repr

/-- The shared boot-sequencer loop: `for name, cfg := range configs` running
`step` per entry, stopping at the first aborting entry (fail-fast). -/
def bootLoop {H E T C : Type} (step : Registry H → String → C → StepRes H E T) :
    List (String × C) → Registry H → StepRes H E T
  | [], reg => ⟨reg, [], none⟩
  | (n, c) :: rest, reg =>
    let r := step reg n c
    match r.err with
    | some e => ⟨r.reg, r.trace, some e⟩
    | none =>
      let r2 := bootLoop step rest r.reg
      ⟨r2.reg, r.trace ++ r2.trace, r2.err⟩

/-- Whether a monitor tick leaves its loop running, exits it, or dies. -/
inductive TickOutcome where
  | continues
  | stops
  | panicked
  deriving DecidableEq, Repr

/-- Drives a health-monitor tick for a number of ticker firings and reports
whether the monitor goroutine is still alive afterwards. -/
def monitorRun {H : Type} (tick : Registry H → List String × List LogEvent × TickOutcome)
    (reg : Registry H) : Nat → Bool
  | 0 => true
  | k + 1 =>
    match (tick reg).2.2 with
    | .continues => monitorRun tick reg k
    | _ => false

/-- Go `error` values the wrappers produce or pass through: a formatted
"does not exist" lookup failure, a failed `Begin`, a failed `Commit`, or an
arbitrary error produced by caller-supplied work (identified by a code). -/
inductive GoErr where
  | notFound (name : String)
  | beginFailed
  | commitFailed
  | userErr (k : Nat)
  deriving DecidableEq, Repr

/-- Result of a backend's `Shutdown`: the names whose close was attempted,
the log output, whether the call panicked, and the registry afterwards
(none of the shutdown loops ever deletes a map entry). -/
structure ShutdownRes (H : Type) where
  attempted : List String
  logs : List LogEvent
  panicked : Bool
  reg : Registry H
  deriving DecidableEq, Repr

namespace logger

/-- An opaque `*zap.Logger` instance. -/
structure ZapLogger where
  id : Nat
  deriving DecidableEq, Repr

/-- Result of a call that can panic: Go's `panic(msg)` or a normal return. -/
inductive CallRes (α : Type) where
  | panicked (msg : String)
  | ok (a : α)
  deriving DecidableEq, Repr

/-- `logger.Logger()`: returns the default logger, panicking when `New` was
never called (`defaultLog == nil`). -/
def Logger (defaultLog : Option ZapLogger) : CallRes ZapLogger :=
  match defaultLog with
  | none => .panicked "logger not initialized, call New first"
  | some l => .ok l

/-- `logger.Info`: `Logger().Info(msg, fields...)`. -/
def Info (defaultLog : Option ZapLogger) (msg : String) : CallRes LogEvent :=
  match Logger defaultLog with
  | .panicked m => .panicked m
  | .ok _ => .ok (.info msg "")

/-- `logger.Debug`: `Logger().Debug(msg, fields...)`. -/
def Debug (defaultLog : Option ZapLogger) (msg : String) : CallRes LogEvent :=
  match Logger defaultLog with
  | .panicked m => .panicked m
  | .ok _ => .ok (.info msg "")

/-- `logger.Warn`: `Logger().Warn(msg, fields...)`. -/
def Warn (defaultLog : Option ZapLogger) (msg : String) : CallRes LogEvent :=
  match Logger defaultLog with
  | .panicked m => .panicked m
  | .ok _ => .ok (.info msg "")

/-- `logger.Error`: `Logger().Error(msg, fields...)`. -/
def Error (defaultLog : Option ZapLogger) (msg : String) : CallRes LogEvent :=
  match Logger defaultLog with
  | .panicked m => .panicked m
  | .ok _ => .ok (.fail msg "")

end logger

namespace mongo

/-- `mongo.Config` (part_001). -/
structure Config where
  uri : String
  maxPoolSize : Nat
  minPoolSize : Nat
  caCertFile : String
  username : String
  password : String
  database : String
  authSource : String
  deriving DecidableEq, Repr

/-- An opaque connected `*mongo.Client`. -/
structure Client where
  id : Nat
  deriving DecidableEq, Repr

/-- The client options assembled by `MustBootUpMongo` before `mongo.Connect`:
URI, optional credentials, optional TLS config parsed from a CA file, and the
pool bounds — each pool bound is set only behind its `> 0` guard, `none`
meaning the driver default stays in effect. -/
structure ClientOpts where
  uri : String
  auth : Option (String × String × String)
  tlsFromCA : Option String
  maxPoolSize : Option Nat
  minPoolSize : Option Nat
  deriving DecidableEq, Repr

/-- The options built from a config before the TLS branch:
`ApplyURI`, `SetAuth` when both username and password are non-empty, and
`SetMaxPoolSize`/`SetMinPoolSize` only when positive. -/
def baseClientOpts (cfg : Config) : ClientOpts :=
  { uri := cfg.uri
  , auth :=
      if cfg.username ≠ "" ∧ cfg.password ≠ "" then
        some (cfg.username, cfg.password, cfg.authSource)
      else none
  , tlsFromCA := none
  , maxPoolSize := if cfg.maxPoolSize > 0 then some cfg.maxPoolSize else none
  , minPoolSize := if cfg.minPoolSize > 0 then some cfg.minPoolSize else none }

/-- The options actually passed to `mongo.Connect` when the CA file (if any)
loads successfully: `SetTLSConfig` is applied only when `CACertFile` is set. -/
def effectiveOpts (cfg : Config) : ClientOpts :=
  if cfg.caCertFile = "" then baseClientOpts cfg
  else { baseClientOpts cfg with tlsFromCA := some cfg.caCertFile }

/-- Oracles for the external calls `MustBootUpMongo` makes: whether
`getTLSConfigFromCA` succeeds on a CA file, the result of `mongo.Connect`
for given options, and the result of `client.Ping`. -/
structure World where
  caOk : String → Bool
  connect : ClientOpts → Option Client
  ping : Client → Bool

/-- Abort causes of one entry of `MustBootUpMongo`; `panicked` is a Go panic
raised by the logging facade, the rest are error returns. -/
inductive Abort where
  | caLoadFailed (name : String)
  | connectFailed (name : String)
  | pingFailed (name : String)
  | dupName (name : String)
  | panicked (msg : String)
  deriving DecidableEq, Repr

/-- `true` exactly on the `panicked` abort. -/
def Abort.isPanic : Abort → Bool
  | .panicked _ => true
  | _ => false

/-- Effects one entry of `MustBootUpMongo` issues against the driver and the
logging sink.  The probe carries the 10-second `context.WithTimeout` deadline
the code builds for it. -/
inductive Eff where
  | connectCall (name : String)
  | probe (name : String) (d : ProbeDeadline)
  | logInfo (msg name : String)
  deriving DecidableEq, Repr

/-- The part of one boot entry after the client options are assembled:
`mongo.Connect`, `client.Ping` under the 10-second context, then — under the
lock — the duplicate-name check, the insert, and the success log through the
facade (which panics when the facade is uninitialized). -/
def bootEntryConn (w : World) (dl : Option logger.ZapLogger) (reg : Registry Client)
    (name : String) (opts : ClientOpts) : StepRes Client Abort Eff :=
  match w.connect opts with
  | none => ⟨reg, [.connectCall name], some (.connectFailed name)⟩
  | some cl =>
    if w.ping cl then
      match lookupReg reg name with
      | some _ =>
        ⟨reg, [.connectCall name, .probe name (.seconds 10)], some (.dupName name)⟩
      | none =>
        match logger.Info dl "Mongo连接成功" with
        | .panicked m =>
          ⟨(name, cl) :: reg, [.connectCall name, .probe name (.seconds 10)],
           some (.panicked m)⟩
        | .ok _ =>
          ⟨(name, cl) :: reg,
           [.connectCall name, .probe name (.seconds 10), .logInfo "Mongo连接成功" name],
           none⟩
    else ⟨reg, [.connectCall name, .probe name (.seconds 10)], some (.pingFailed name)⟩

/-- One configuration entry of `MustBootUpMongo` (the inner closure,
part_000 lines 27–85): build options — failing the entry when the CA file
cannot be loaded — then connect, probe, check-and-insert, log. -/
def bootEntry (w : World) (dl : Option logger.ZapLogger) (reg : Registry Client)
    (name : String) (cfg : Config) : StepRes Client Abort Eff :=
  if cfg.caCertFile = "" then
    bootEntryConn w dl reg name (baseClientOpts cfg)
  else if w.caOk cfg.caCertFile then
    bootEntryConn w dl reg name { baseClientOpts cfg with tlsFromCA := some cfg.caCertFile }
  else ⟨reg, [], some (.caLoadFailed name)⟩

/-- `MustBootUpMongo` (part_000 lines 25–108): iterate the configuration
entries over the current package-level `clientMap` (`reg0`), fail fast. -/
def MustBootUpMongo (w : World) (dl : Option logger.ZapLogger)
    (configs : List (String × Config)) (reg0 : Registry Client) : StepRes Client Abort Eff :=
  bootLoop (bootEntry w dl) configs reg0

/-- One tick of the Mongo health monitor (part_000 lines 96–104): ping every
registered client, log failures through the facade, keep going. -/
def monitorTick (w : World) (dl : Option logger.ZapLogger) :
    Registry Client → List String × List LogEvent × TickOutcome
  | [] => ([], [], .continues)
  | (n, cl) :: rest =>
    if w.ping cl then
      let (ps, ls, o) := monitorTick w dl rest
      (n :: ps, ls, o)
    else
      match logger.Error dl "Mongo健康检查失败" with
      | .panicked _ => ([n], [], .panicked)
      | .ok _ =>
        let (ps, ls, o) := monitorTick w dl rest
        (n :: ps, .fail "Mongo健康检查失败" n :: ls, o)

/-- `GetClient` (part_000 lines 125–134): `(nil, "mongo实例不存在" error)` on a
missing name, `(client, nil)` otherwise. -/
def GetClient (reg : Registry Client) (name : String) : Option Client × Option GoErr :=
  match lookupReg reg name with
  | none => (none, some (.notFound name))
  | some cl => (some cl, none)

/-- `ShutdownMongo` (part_000 lines 146–155): disconnect every client,
logging failures through the facade; no map entry is deleted. -/
def ShutdownMongo (dl : Option logger.ZapLogger) (closeOk : Client → Bool) :
    Registry Client → ShutdownRes Client
  | [] => ⟨[], [], false, []⟩
  | (n, cl) :: rest =>
    if closeOk cl then
      let r := ShutdownMongo dl closeOk rest
      ⟨n :: r.attempted, r.logs, r.panicked, (n, cl) :: r.reg⟩
    else
      match logger.Error dl "Mongo 关闭失败" with
      | .panicked _ => ⟨[n], [], true, (n, cl) :: rest⟩
      | .ok _ =>
        let r := ShutdownMongo dl closeOk rest
        ⟨n :: r.attempted, .fail "Mongo 关闭失败" n :: r.logs, r.panicked, (n, cl) :: r.reg⟩

end mongo

namespace redis

/-- `redis.Config` (config.go). -/
structure Config where
  mode : String
  addr : String
  password : String
  db : Int
  masterName : String
  slaves : List String
  poolSize : Int
  minIdle : Int
  deriving DecidableEq, Repr

/-- An opaque `redis.UniversalClient`. -/
structure UniversalClient where
  id : Nat
  deriving DecidableEq, Repr

/-- Modelled from the spec: the Redis mode constants are declared in a
repository file that is not under `src/`; the spec names the three modes
standalone, sentinel and cluster. -/
def SENTINEL : String := "sentinel"

/-- Modelled from the spec: see `SENTINEL`. -/
def CLUSTER : String := "cluster"

/-- The option struct literal `MustBootUpRedis` hands to the go-redis
constructor of the selected mode.  Unlike the Mongo and XORM wrappers, the
pool fields are filled in unconditionally from the config: a field left at
the Go zero value `0` is what the library treats as "use the default". -/
inductive Opts where
  | failover (masterName : String) (sentinelAddrs : List String) (password : String)
      (db : Int) (poolSize : Int) (minIdleConns : Int)
  | cluster (addrs : List String) (password : String) (poolSize : Int) (minIdleConns : Int)
  | standalone (addr : String) (password : String) (db : Int) (poolSize : Int)
      (minIdleConns : Int)
  deriving DecidableEq, Repr

/-- The `PoolSize` field of whichever option struct was built. -/
def Opts.poolSize : Opts → Int
  | .failover _ _ _ _ p _ => p
  | .cluster _ _ p _ => p
  | .standalone _ _ _ p _ => p

/-- The `MinIdleConns` field of whichever option struct was built. -/
def Opts.minIdleConns : Opts → Int
  | .failover _ _ _ _ _ m => m
  | .cluster _ _ _ m => m
  | .standalone _ _ _ _ m => m

/-- The `switch c.Mode` of `MustBootUpRedis` (redis.go lines 21–49). -/
def clientOpts (c : Config) : Opts :=
  if c.mode = SENTINEL then
    .failover c.masterName c.slaves c.password c.db c.poolSize c.minIdle
  else if c.mode = CLUSTER then
    .cluster c.slaves c.password c.poolSize c.minIdle
  else
    .standalone c.addr c.password c.db c.poolSize c.minIdle

/-- Oracles for the external go-redis calls: client construction (which,
unlike `mongo.Connect`, cannot fail) and `Ping`. -/
structure World where
  newClient : Opts → UniversalClient
  ping : UniversalClient → Bool

/-- Abort causes of one entry of `MustBootUpRedis`. -/
inductive Abort where
  | pingFailed (name : String)
  | dupName (name : String)
  | panicked (msg : String)
  deriving DecidableEq, Repr

/-- `true` exactly on the `panicked` abort. -/
def Abort.isPanic : Abort → Bool
  | .panicked _ => true
  | _ => false

/-- Effects one entry of `MustBootUpRedis` issues.  Its liveness probe is
`client.Ping(context.Background())` — no deadline. -/
inductive Eff where
  | newClientCall (name : String) (opts : Opts)
  | probe (name : String) (d : ProbeDeadline)
  | logInfo (msg name : String)
  deriving DecidableEq, Repr

/-- One configuration entry of `MustBootUpRedis` (redis.go lines 18–64):
build the mode-selected client, ping with a background context, duplicate
check, insert, then log success through the facade (which panics when the
facade is uninitialized). -/
def bootEntry (w : World) (dl : Option logger.ZapLogger) (reg : Registry UniversalClient)
    (name : String) (c : Config) : StepRes UniversalClient Abort Eff :=
  let opts := clientOpts c
  let cl := w.newClient opts
  if w.ping cl then
    match lookupReg reg name with
    | some _ =>
      ⟨reg, [.newClientCall name opts, .probe name .unbounded], some (.dupName name)⟩
    | none =>
      match logger.Info dl "Redis连接成功" with
      | .panicked m =>
        ⟨(name, cl) :: reg, [.newClientCall name opts, .probe name .unbounded],
         some (.panicked m)⟩
      | .ok _ =>
        ⟨(name, cl) :: reg,
         [.newClientCall name opts, .probe name .unbounded, .logInfo "Redis连接成功" name],
         none⟩
  else ⟨reg, [.newClientCall name opts, .probe name .unbounded], some (.pingFailed name)⟩

/-- `MustBootUpRedis` (redis.go lines 17–80): iterate the configuration
entries over the current package-level `redisMgr` (`reg0`), fail fast. -/
def MustBootUpRedis (w : World) (dl : Option logger.ZapLogger)
    (configs : List (String × Config)) (reg0 : Registry UniversalClient) :
    StepRes UniversalClient Abort Eff :=
  bootLoop (bootEntry w dl) configs reg0

/-- One tick of the Redis health monitor (redis.go lines 70–76): ping every
registered client, log failures through the facade, keep going. -/
def monitorTick (w : World) (dl : Option logger.ZapLogger) :
    Registry UniversalClient → List String × List LogEvent × TickOutcome
  | [] => ([], [], .continues)
  | (n, cl) :: rest =>
    if w.ping cl then
      let (ps, ls, o) := monitorTick w dl rest
      (n :: ps, ls, o)
    else
      match logger.Error dl "Redis连接检测失败" with
      | .panicked _ => ([n], [], .panicked)
      | .ok _ =>
        let (ps, ls, o) := monitorTick w dl rest
        (n :: ps, .fail "Redis连接检测失败" n :: ls, o)

/-- `GetRedis` (redis.go lines 83–89). -/
def GetRedis (reg : Registry UniversalClient) (name : String) :
    Option UniversalClient × Option GoErr :=
  match lookupReg reg name with
  | none => (none, some (.notFound name))
  | some cl => (some cl, none)

/-- `redis.Transaction` (transaction.go lines 9–18): look the client up —
propagating the lookup error — then hand the caller-supplied function to the
library's `TxPipelined`, whose result (an opaque library behavior) is
returned as-is. -/
def Transaction (reg : Registry UniversalClient)
    (txPipelined : UniversalClient → Option GoErr) (name : String) : Option GoErr :=
  match lookupReg reg name with
  | none => some (.notFound name)
  | some cl => txPipelined cl

/-- `ShutdownRedis` (redis.go lines 92–98): close every client, printing
failures with `fmt.Printf`; no map entry is deleted. -/
def ShutdownRedis (closeOk : UniversalClient → Bool) :
    Registry UniversalClient → ShutdownRes UniversalClient
  | [] => ⟨[], [], false, []⟩
  | (n, cl) :: rest =>
    let r := ShutdownRedis closeOk rest
    if closeOk cl then
      ⟨n :: r.attempted, r.logs, false, (n, cl) :: r.reg⟩
    else
      ⟨n :: r.attempted, .printLine "Redis关闭失败" n :: r.logs, false, (n, cl) :: r.reg⟩

end redis

namespace db

/-- One slave entry of `XORMConfigLite`. -/
structure SlaveCfg where
  dsn : String
  deriving DecidableEq, Repr

/-- `db.XORMConfigLite` (part_003 lines 159–172). -/
structure XORMConfigLite where
  driver : String
  dsn : String
  maxIdle : Int
  maxOpen : Int
  showSql : Bool
  slave : List SlaveCfg
  maxLife : Int
  synchronization : Bool
  deriving DecidableEq, Repr

/-- An opaque `*xorm.Engine`. -/
structure Engine where
  id : Nat
  deriving DecidableEq, Repr

/-- An opaque `*xorm.EngineGroup`. -/
structure EngineGroup where
  id : Nat
  deriving DecidableEq, Repr

/-- The connection-pool settings `MustBootUpXORM` applies to an engine group
(part_003 lines 221–229): each setter is called only behind its `> 0` guard,
`none` meaning the library default stays in effect.  The max-lifetime value
is multiplied by `time.Millisecond`, so the stored number is in
milliseconds. -/
structure PoolSettings where
  maxIdleConns : Option Int
  maxOpenConns : Option Int
  connMaxLifetimeMs : Option Int
  deriving DecidableEq, Repr

/-- Builds the pool settings from a config. -/
def xormPoolSettings (c : XORMConfigLite) : PoolSettings :=
  { maxIdleConns := if c.maxIdle > 0 then some c.maxIdle else none
  , maxOpenConns := if c.maxOpen > 0 then some c.maxOpen else none
  , connMaxLifetimeMs := if c.maxLife > 0 then some c.maxLife else none }

/-- Oracles for the external xorm calls `MustBootUpXORM` makes. -/
structure World where
  newEngine : String → String → Option Engine
  newEngineGroup : Engine → List Engine → Option EngineGroup
  ping : EngineGroup → Bool
  syncRun : String → EngineGroup → Bool

/-- Abort causes of one entry of `MustBootUpXORM` — all of them plain error
returns (this package logs through the `sqlLog` argument, not the facade,
so no entry can panic). -/
inductive Abort where
  | masterFailed
  | slaveFailed
  | groupFailed
  | pingFailed
  | dupName (name : String)
  | syncFailed
  deriving DecidableEq, Repr

/-- Effects one entry of `MustBootUpXORM` issues.  Its liveness probe is
`db.Ping()` — no context, no deadline. -/
inductive Eff where
  | configure (s : PoolSettings)
  | probe (d : ProbeDeadline)
  | logInfo (msg name : String)
  deriving DecidableEq, Repr

/-- The slave-engine loop (part_003 lines 201–208): the first failing
`xorm.NewEngine` aborts the entry. -/
def connectSlaves (w : World) (driver : String) : List SlaveCfg → Option (List Engine)
  | [] => some []
  | s :: rest =>
    match w.newEngine driver s.dsn with
    | none => none
    | some e => (connectSlaves w driver rest).map (e :: ·)

/-- One configuration entry of `MustBootUpXORM` (part_003 lines 193–251):
master engine, slave engines, engine group, logger/pool configuration, ping,
duplicate check, optional structure sync, insert, success log on `sqlLog`. -/
def bootEntry (w : World) (syncSet : Bool) (reg : Registry EngineGroup)
    (name : String) (c : XORMConfigLite) : StepRes EngineGroup Abort Eff :=
  match w.newEngine c.driver c.dsn with
  | none => ⟨reg, [], some .masterFailed⟩
  | some master =>
    match connectSlaves w c.driver c.slave with
    | none => ⟨reg, [], some .slaveFailed⟩
    | some slaves =>
      match w.newEngineGroup master slaves with
      | none => ⟨reg, [], some .groupFailed⟩
      | some g =>
        let settings := xormPoolSettings c
        if w.ping g then
          match lookupReg reg name with
          | some _ => ⟨reg, [.configure settings, .probe .unbounded], some (.dupName name)⟩
          | none =>
            if syncSet ∧ c.synchronization ∧ w.syncRun name g = false then
              ⟨reg, [.configure settings, .probe .unbounded], some .syncFailed⟩
            else
              ⟨(name, g) :: reg,
               [.configure settings, .probe .unbounded, .logInfo "XORM连接成功" name],
               none⟩
        else ⟨reg, [.configure settings, .probe .unbounded], some .pingFailed⟩

/-- `MustBootUpXORM` (part_003 lines 190–270): iterate the configuration
entries over the current package-level `dbMgr` (`reg0`), fail fast.
`syncSet` is whether a `SetSyncFunc` option installed a sync function. -/
def MustBootUpXORM (w : World) (syncSet : Bool)
    (configs : List (String × XORMConfigLite)) (reg0 : Registry EngineGroup) :
    StepRes EngineGroup Abort Eff :=
  bootLoop (bootEntry w syncSet) configs reg0

/-- One tick of the XORM health monitor (part_003 lines 256–266): ping the
registered engine groups in order, but on the first failure log once (on
`sqlLog`, without the instance name) and `return` — terminating the monitor
goroutine and leaving the remaining handles unprobed. -/
def monitorTick (w : World) : Registry EngineGroup → List String × List LogEvent × TickOutcome
  | [] => ([], [], .continues)
  | (n, g) :: rest =>
    if w.ping g then
      let (ps, ls, o) := monitorTick w rest
      (n :: ps, ls, o)
    else ([n], [.fail "mysql ticker ping database fail" ""], .stops)

/-- `db.get` (part_003 lines 311–317). -/
def get (reg : Registry EngineGroup) (name : String) :
    Option EngineGroup × Option GoErr :=
  match lookupReg reg name with
  | none => (none, some (.notFound name))
  | some g => (some g, none)

/-- Outcome of the caller-supplied work function handed to `Transaction`:
it returns nil, returns an error, or panics. -/
inductive WorkRes where
  | ok
  | fail (e : GoErr)
  | panics
  deriving DecidableEq, Repr

/-- Oracles for the session's own effectful calls inside `Transaction`.
`rollbackRes` and `closeRes` are listed because the code discards both
results (`_ = session.Rollback()`; `Close` swallows its error). -/
structure SessionWorld where
  beginRes : Option GoErr
  commitRes : Option GoErr
  rollbackRes : Option GoErr
  closeRes : Option GoErr
  deriving DecidableEq, Repr

/-- How `Transaction` returns to its caller: a Go return value, or a panic
propagating out of the work function. -/
inductive TxOutcome where
  | ret (e : Option GoErr)
  | panicked
  deriving DecidableEq, Repr

/-- The session-level calls `Transaction` performs, in order. -/
inductive TxEvent where
  | newSession
  | beginTx
  | workCalled
  | rollback
  | commitTx
  | closeSession
  deriving DecidableEq, Repr

/-- `db.Transaction` (part_003 lines 273–290): look up the engine group via
`NewSessionContext` (propagating the lookup error before any session
exists), open a session with `defer Close(session)`, `Begin`, run the work
function — rolling back and returning its error unchanged on failure — and
`Commit` otherwise, returning the commit result.  The deferred `Close` runs
on every exit path after the session was obtained, including a panic inside
the work function. -/
def Transaction (reg : Registry EngineGroup) (sw : SessionWorld) (name : String)
    (work : WorkRes) : TxOutcome × List TxEvent :=
  match lookupReg reg name with
  | none => (.ret (some (.notFound name)), [])
  | some _ =>
    match sw.beginRes with
    | some e => (.ret (some e), [.newSession, .beginTx, .closeSession])
    | none =>
      match work with
      | .panics => (.panicked, [.newSession, .beginTx, .workCalled, .closeSession])
      | .fail e =>
        (.ret (some e), [.newSession, .beginTx, .workCalled, .rollback, .closeSession])
      | .ok =>
        (.ret sw.commitRes,
         [.newSession, .beginTx, .workCalled, .commitTx, .closeSession])

/-- `ShutdownXorm` (part_003 lines 328–335): close every engine group; a
failing close is skipped with `continue` — and, unlike the other two
backends, not logged at all; no map entry is deleted. -/
def ShutdownXorm (closeOk : EngineGroup → Bool) :
    Registry EngineGroup → ShutdownRes EngineGroup
  | [] => ⟨[], [], false, []⟩
  | (n, g) :: rest =>
    let r := ShutdownXorm closeOk rest
    if closeOk g then
      ⟨n :: r.attempted, r.logs, false, (n, g) :: r.reg⟩
    else
      ⟨n :: r.attempted, r.logs, false, (n, g) :: r.reg⟩

end db

section BootLemmas

/-- If every entry before a failing entry succeeds, the boot loop stops at
the failing entry: it returns that entry's error, the registry the step left
behind, and a trace containing nothing from the remaining entries. -/
theorem bootLoop_append_fail {H E T C : Type} (step : Registry H → String → C → StepRes H E T)
    (pre : List (String × C)) (n : String) (c : C) (post : List (String × C))
    (reg0 : Registry H) (e : E)
    (hpre : (bootLoop step pre reg0).err = none)
    (hstep : (step (bootLoop step pre reg0).reg n c).err = some e) :
    bootLoop step (pre ++ (n, c) :: post) reg0 =
      ⟨(step (bootLoop step pre reg0).reg n c).reg,
       (bootLoop step pre reg0).trace ++ (step (bootLoop step pre reg0).reg n c).trace,
       some e⟩ := by
  induction pre generalizing reg0 with
  | nil =>
    simp only [bootLoop, List.nil_append] at hstep ⊢
    rw [hstep]
  | cons p pre ih =>
    obtain ⟨m, cfg⟩ := p
    simp only [bootLoop, List.cons_append] at hpre hstep ⊢
    cases h : (step reg0 m cfg).err with
    | some e2 => rw [h] at hpre; simp at hpre
    | none =>
      simp only [h, List.append_eq] at hpre hstep ⊢
      rw [ih _ hpre hstep]
      simp [List.append_assoc]

/-- The connect/ping/insert part of a Mongo boot entry leaves the registry
untouched whenever it fails with an error return (anything but the facade
panic, which fires only after the insert). -/
theorem mongo_bootEntryConn_nonpanic_reg (w : mongo.World) (dl : Option logger.ZapLogger)
    (reg : Registry mongo.Client) (n : String) (opts : mongo.ClientOpts) :
    ∀ e : mongo.Abort, (mongo.bootEntryConn w dl reg n opts).err = some e →
      e.isPanic = false → (mongo.bootEntryConn w dl reg n opts).reg = reg := by
  intro e herr hnp
  unfold mongo.bootEntryConn at herr ⊢
  cases hc : w.connect opts with
  | none => simp [hc]
  | some cl =>
    simp only [hc] at herr ⊢
    by_cases hp : w.ping cl = true
    · simp only [hp, if_true] at herr ⊢
      cases hl : lookupReg reg n with
      | some h0 => simp [hl]
      | none =>
        simp only [hl] at herr ⊢
        cases hi : logger.Info dl "Mongo连接成功" with
        | panicked m =>
          simp only [hi] at herr
          cases herr
          simp [mongo.Abort.isPanic] at hnp
        | ok ev => simp [hi] at herr
    · simp [hp] at herr ⊢

/-- A Mongo boot entry that fails with an error return leaves the registry
untouched. -/
theorem mongo_bootEntry_nonpanic_reg (w : mongo.World) (dl : Option logger.ZapLogger)
    (reg : Registry mongo.Client) (n : String) (cfg : mongo.Config) :
    ∀ e : mongo.Abort, (mongo.bootEntry w dl reg n cfg).err = some e →
      e.isPanic = false → (mongo.bootEntry w dl reg n cfg).reg = reg := by
  intro e herr hnp
  unfold mongo.bootEntry at herr ⊢
  by_cases hca : cfg.caCertFile = ""
  · simp only [if_pos hca] at herr ⊢
    exact mongo_bootEntryConn_nonpanic_reg w dl reg n _ e herr hnp
  · simp only [if_neg hca] at herr ⊢
    by_cases hok : w.caOk cfg.caCertFile = true
    · simp only [hok, if_true] at herr ⊢
      exact mongo_bootEntryConn_nonpanic_reg w dl reg n _ e herr hnp
    · simp only [hok] at herr ⊢
      simp [if_neg hok]

/-- The connect/ping/insert part of a Mongo boot entry aborts with the
duplicate-instance error — leaving the registry as it was — when the name is
already registered and connect and ping succeed. -/
theorem mongo_bootEntryConn_dup (w : mongo.World) (dl : Option logger.ZapLogger)
    (reg : Registry mongo.Client) (n : String) (opts : mongo.ClientOpts)
    (h0 cl : mongo.Client)
    (hl : lookupReg reg n = some h0)
    (hc : w.connect opts = some cl) (hp : w.ping cl = true) :
    mongo.bootEntryConn w dl reg n opts =
      ⟨reg, [.connectCall n, .probe n (.seconds 10)], some (.dupName n)⟩ := by
  unfold mongo.bootEntryConn
  simp [hc, hp, hl]

/-- A Mongo boot entry on an already-registered name, with a loadable CA
file (if any) and successful connect and ping, fails with the
duplicate-instance error and leaves the registry unchanged. -/
theorem mongo_bootEntry_dup (w : mongo.World) (dl : Option logger.ZapLogger)
    (reg : Registry mongo.Client) (n : String) (cfg : mongo.Config)
    (h0 cl : mongo.Client)
    (hl : lookupReg reg n = some h0)
    (hca : cfg.caCertFile = "" ∨ w.caOk cfg.caCertFile = true)
    (hc : w.connect (mongo.effectiveOpts cfg) = some cl)
    (hp : w.ping cl = true) :
    mongo.bootEntry w dl reg n cfg =
      ⟨reg, [.connectCall n, .probe n (.seconds 10)], some (.dupName n)⟩ := by
  unfold mongo.bootEntry
  by_cases hce : cfg.caCertFile = ""
  · simp only [if_pos hce]
    refine mongo_bootEntryConn_dup w dl reg n _ h0 cl hl ?_ hp
    rw [← hc]
    simp [mongo.effectiveOpts, hce]
  · rcases hca with h | h
    · exact absurd h hce
    · simp only [if_neg hce, h, if_true]
      refine mongo_bootEntryConn_dup w dl reg n _ h0 cl hl ?_ hp
      rw [← hc]
      simp [mongo.effectiveOpts, hce]

/-- A Redis boot entry that fails with an error return (anything but the
facade panic, which fires only after the insert) leaves the registry
untouched. -/
theorem redis_bootEntry_nonpanic_reg (w : redis.World) (dl : Option logger.ZapLogger)
    (reg : Registry redis.UniversalClient) (n : String) (c : redis.Config) :
    ∀ e : redis.Abort, (redis.bootEntry w dl reg n c).err = some e →
      e.isPanic = false → (redis.bootEntry w dl reg n c).reg = reg := by
  intro e herr hnp
  simp only [redis.bootEntry] at herr ⊢
  by_cases hp : w.ping (w.newClient (redis.clientOpts c)) = true
  · simp only [hp, if_true] at herr ⊢
    cases hl : lookupReg reg n with
    | some h0 => simp [hl]
    | none =>
      simp only [hl] at herr ⊢
      cases hi : logger.Info dl "Redis连接成功" with
      | panicked m =>
        simp only [hi] at herr
        cases herr
        simp [redis.Abort.isPanic] at hnp
      | ok ev => simp [hi] at herr
  · simp [hp] at herr ⊢

/-- A Redis boot entry on an already-registered name whose ping succeeds
fails with the duplicate-instance error and leaves the registry unchanged. -/
theorem redis_bootEntry_dup (w : redis.World) (dl : Option logger.ZapLogger)
    (reg : Registry redis.UniversalClient) (n : String) (c : redis.Config)
    (h0 : redis.UniversalClient)
    (hl : lookupReg reg n = some h0)
    (hp : w.ping (w.newClient (redis.clientOpts c)) = true) :
    redis.bootEntry w dl reg n c =
      ⟨reg, [.newClientCall n (redis.clientOpts c), .probe n .unbounded],
       some (.dupName n)⟩ := by
  simp only [redis.bootEntry]
  simp [hp, hl]

/-- An XORM boot entry that fails — with any of its error returns — leaves
the registry untouched (the insert is the entry's final act). -/
theorem db_bootEntry_err_reg (w : db.World) (syncSet : Bool)
    (reg : Registry db.EngineGroup) (n : String) (c : db.XORMConfigLite) :
    ∀ e : db.Abort, (db.bootEntry w syncSet reg n c).err = some e →
      (db.bootEntry w syncSet reg n c).reg = reg := by
  intro e herr
  unfold db.bootEntry at herr ⊢
  cases hm : w.newEngine c.driver c.dsn with
  | none => simp [hm]
  | some master =>
    simp only [hm] at herr ⊢
    cases hs : db.connectSlaves w c.driver c.slave with
    | none => simp [hs]
    | some slaves =>
      simp only [hs] at herr ⊢
      cases hg : w.newEngineGroup master slaves with
      | none => simp [hg]
      | some g =>
        simp only [hg] at herr ⊢
        by_cases hp : w.ping g = true
        · simp only [hp, if_true] at herr ⊢
          cases hl : lookupReg reg n with
          | some h0 => simp [hl]
          | none =>
            simp only [hl] at herr ⊢
            by_cases hsy : (syncSet = true ∧ c.synchronization = true ∧ w.syncRun n g = false)
            · simp [hsy]
            · simp [hsy] at herr
        · simp [hp] at herr ⊢

/-- An XORM boot entry on an already-registered name, with all engine
construction succeeding and a successful ping, fails with the
duplicate-instance error and leaves the registry unchanged. -/
theorem db_bootEntry_dup (w : db.World) (syncSet : Bool)
    (reg : Registry db.EngineGroup) (n : String) (c : db.XORMConfigLite)
    (h0 : db.EngineGroup) (master : db.Engine) (slaves : List db.Engine)
    (g : db.EngineGroup)
    (hl : lookupReg reg n = some h0)
    (hm : w.newEngine c.driver c.dsn = some master)
    (hs : db.connectSlaves w c.driver c.slave = some slaves)
    (hg : w.newEngineGroup master slaves = some g)
    (hp : w.ping g = true) :
    db.bootEntry w syncSet reg n c =
      ⟨reg, [.configure (db.xormPoolSettings c), .probe .unbounded],
       some (.dupName n)⟩ := by
  unfold db.bootEntry
  simp [hm, hs, hg, hp, hl]

end BootLemmas

section Fixtures

/-- A Mongo world in which every external call succeeds. -/
def wMongo : mongo.World :=
  { caOk := fun _ => true, connect := fun _ => some ⟨1⟩, ping := fun _ => true }

/-- A minimal Mongo configuration entry. -/
def cfgMongo : mongo.Config :=
  { uri := "mongodb://localhost", maxPoolSize := 0, minPoolSize := 0, caCertFile := ""
  , username := "", password := "", database := "", authSource := "" }

/-- A Redis world in which every external call succeeds. -/
def wRedis : redis.World :=
  { newClient := fun _ => ⟨1⟩, ping := fun _ => true }

/-- A minimal standalone-mode Redis configuration entry. -/
def cfgRedis : redis.Config :=
  { mode := "", addr := "127.0.0.1:6379", password := "", db := 0, masterName := ""
  , slaves := [], poolSize := 0, minIdle := 0 }

/-- An XORM world in which every external call succeeds. -/
def wXorm : db.World :=
  { newEngine := fun _ _ => some ⟨1⟩, newEngineGroup := fun _ _ => some ⟨1⟩
  , ping := fun _ => true, syncRun := fun _ _ => true }

/-- A minimal XORM configuration entry. -/
def cfgXorm : db.XORMConfigLite :=
  { driver := "mysql", dsn := "d", maxIdle := 0, maxOpen := 0, showSql := false
  , slave := [], maxLife := 0, synchronization := false }

/-- An initialized logging facade. -/
def dlSome : Option logger.ZapLogger := some ⟨0⟩

end Fixtures

/-- C1: For every backend, when BootUp processes a configuration entry that
fails (client construction, liveness probe, or a name already present in
the registry), it returns that first error immediately and processes no
further entries; the registry is exactly the one left by the earlier,
successful entries of the same call (no rollback, no close, no
deregistration), and in the duplicate-name case the handle previously
registered under that name is left unchanged and remains retrievable by
lookup. -/
theorem C1_bootup_fail_fast_no_rollback :
    (∀ (w : mongo.World) (dl : Option logger.ZapLogger)
       (pre post : List (String × mongo.Config)) (n : String) (cfg : mongo.Config)
       (reg0 : Registry mongo.Client) (e : mongo.Abort),
       (mongo.MustBootUpMongo w dl pre reg0).err = none →
       (mongo.bootEntry w dl (mongo.MustBootUpMongo w dl pre reg0).reg n cfg).err = some e →
       e.isPanic = false →
       mongo.MustBootUpMongo w dl (pre ++ (n, cfg) :: post) reg0 =
         ⟨(mongo.MustBootUpMongo w dl pre reg0).reg,
          (mongo.MustBootUpMongo w dl pre reg0).trace ++
            (mongo.bootEntry w dl (mongo.MustBootUpMongo w dl pre reg0).reg n cfg).trace,
          some e⟩) ∧
    (∀ (w : mongo.World) (dl : Option logger.ZapLogger) (reg : Registry mongo.Client)
       (n : String) (cfg : mongo.Config) (h0 cl : mongo.Client),
       lookupReg reg n = some h0 →
       (cfg.caCertFile = "" ∨ w.caOk cfg.caCertFile = true) →
       w.connect (mongo.effectiveOpts cfg) = some cl →
       w.ping cl = true →
       mongo.bootEntry w dl reg n cfg =
         ⟨reg, [.connectCall n, .probe n (.seconds 10)], some (.dupName n)⟩ ∧
       lookupReg (mongo.bootEntry w dl reg n cfg).reg n = some h0) ∧
    (∀ (w : redis.World) (dl : Option logger.ZapLogger)
       (pre post : List (String × redis.Config)) (n : String) (c : redis.Config)
       (reg0 : Registry redis.UniversalClient) (e : redis.Abort),
       (redis.MustBootUpRedis w dl pre reg0).err = none →
       (redis.bootEntry w dl (redis.MustBootUpRedis w dl pre reg0).reg n c).err = some e →
       e.isPanic = false →
       redis.MustBootUpRedis w dl (pre ++ (n, c) :: post) reg0 =
         ⟨(redis.MustBootUpRedis w dl pre reg0).reg,
          (redis.MustBootUpRedis w dl pre reg0).trace ++
            (redis.bootEntry w dl (redis.MustBootUpRedis w dl pre reg0).reg n c).trace,
          some e⟩) ∧
    (∀ (w : redis.World) (dl : Option logger.ZapLogger)
       (reg : Registry redis.UniversalClient) (n : String) (c : redis.Config)
       (h0 : redis.UniversalClient),
       lookupReg reg n = some h0 →
       w.ping (w.newClient (redis.clientOpts c)) = true →
       redis.bootEntry w dl reg n c =
         ⟨reg, [.newClientCall n (redis.clientOpts c), .probe n .unbounded],
          some (.dupName n)⟩ ∧
       lookupReg (redis.bootEntry w dl reg n c).reg n = some h0) ∧
    (∀ (w : db.World) (syncSet : Bool)
       (pre post : List (String × db.XORMConfigLite)) (n : String)
       (c : db.XORMConfigLite) (reg0 : Registry db.EngineGroup) (e : db.Abort),
       (db.MustBootUpXORM w syncSet pre reg0).err = none →
       (db.bootEntry w syncSet (db.MustBootUpXORM w syncSet pre reg0).reg n c).err = some e →
       db.MustBootUpXORM w syncSet (pre ++ (n, c) :: post) reg0 =
         ⟨(db.MustBootUpXORM w syncSet pre reg0).reg,
          (db.MustBootUpXORM w syncSet pre reg0).trace ++
            (db.bootEntry w syncSet (db.MustBootUpXORM w syncSet pre reg0).reg n c).trace,
          some e⟩) ∧
    (∀ (w : db.World) (syncSet : Bool) (reg : Registry db.EngineGroup) (n : String)
       (c : db.XORMConfigLite) (h0 : db.EngineGroup) (master : db.Engine)
       (slaves : List db.Engine) (g : db.EngineGroup),
       lookupReg reg n = some h0 →
       w.newEngine c.driver c.dsn = some master →
       db.connectSlaves w c.driver c.slave = some slaves →
       w.newEngineGroup master slaves = some g →
       w.ping g = true →
       db.bootEntry w syncSet reg n c =
         ⟨reg, [.configure (db.xormPoolSettings c), .probe .unbounded],
          some (.dupName n)⟩ ∧
       lookupReg (db.bootEntry w syncSet reg n c).reg n = some h0) := by
  refine ⟨?_, ?_, ?_, ?_, ?_, ?_⟩
  · intro w dl pre post n cfg reg0 e hpre hstep hnp
    unfold mongo.MustBootUpMongo at hpre hstep ⊢
    rw [bootLoop_append_fail (mongo.bootEntry w dl) pre n cfg post reg0 e hpre hstep,
      mongo_bootEntry_nonpanic_reg w dl _ n cfg e hstep hnp]
  · intro w dl reg n cfg h0 cl hl hca hc hp
    have h1 := mongo_bootEntry_dup w dl reg n cfg h0 cl hl hca hc hp
    rw [h1]
    exact ⟨rfl, hl⟩
  · intro w dl pre post n c reg0 e hpre hstep hnp
    unfold redis.MustBootUpRedis at hpre hstep ⊢
    rw [bootLoop_append_fail (redis.bootEntry w dl) pre n c post reg0 e hpre hstep,
      redis_bootEntry_nonpanic_reg w dl _ n c e hstep hnp]
  · intro w dl reg n c h0 hl hp
    have h1 := redis_bootEntry_dup w dl reg n c h0 hl hp
    rw [h1]
    exact ⟨rfl, hl⟩
  · intro w syncSet pre post n c reg0 e hpre hstep
    unfold db.MustBootUpXORM at hpre hstep ⊢
    rw [bootLoop_append_fail (db.bootEntry w syncSet) pre n c post reg0 e hpre hstep,
      db_bootEntry_err_reg w syncSet _ n c e hstep]
  · intro w syncSet reg n c h0 master slaves g hl hm hs hg hp
    have h1 := db_bootEntry_dup w syncSet reg n c h0 master slaves g hl hm hs hg hp
    rw [h1]
    exact ⟨rfl, hl⟩

/-- Witness for C1: booting the entry list `a, a, b` in a world where every
external call succeeds fails on the duplicate second entry, keeps the first
registration, and never processes `b` — for each of the three backends. -/
theorem C1_witness :
    ((mongo.MustBootUpMongo wMongo dlSome [("a", cfgMongo)] []).err = none ∧
     mongo.MustBootUpMongo wMongo dlSome
         ([("a", cfgMongo)] ++ ("a", cfgMongo) :: [("b", cfgMongo)]) [] =
       ⟨(mongo.MustBootUpMongo wMongo dlSome [("a", cfgMongo)] []).reg,
        (mongo.MustBootUpMongo wMongo dlSome [("a", cfgMongo)] []).trace ++
          (mongo.bootEntry wMongo dlSome
            (mongo.MustBootUpMongo wMongo dlSome [("a", cfgMongo)] []).reg
            "a" cfgMongo).trace,
        some (.dupName "a")⟩ ∧
     lookupReg (mongo.bootEntry wMongo dlSome [("a", ⟨1⟩)] "a" cfgMongo).reg "a" =
       some ⟨1⟩) ∧
    ((redis.MustBootUpRedis wRedis dlSome [("a", cfgRedis)] []).err = none ∧
     redis.MustBootUpRedis wRedis dlSome
         ([("a", cfgRedis)] ++ ("a", cfgRedis) :: [("b", cfgRedis)]) [] =
       ⟨(redis.MustBootUpRedis wRedis dlSome [("a", cfgRedis)] []).reg,
        (redis.MustBootUpRedis wRedis dlSome [("a", cfgRedis)] []).trace ++
          (redis.bootEntry wRedis dlSome
            (redis.MustBootUpRedis wRedis dlSome [("a", cfgRedis)] []).reg
            "a" cfgRedis).trace,
        some (.dupName "a")⟩ ∧
     lookupReg (redis.bootEntry wRedis dlSome [("a", ⟨1⟩)] "a" cfgRedis).reg "a" =
       some ⟨1⟩) ∧
    ((db.MustBootUpXORM wXorm false [("a", cfgXorm)] []).err = none ∧
     db.MustBootUpXORM wXorm false
         ([("a", cfgXorm)] ++ ("a", cfgXorm) :: [("b", cfgXorm)]) [] =
       ⟨(db.MustBootUpXORM wXorm false [("a", cfgXorm)] []).reg,
        (db.MustBootUpXORM wXorm false [("a", cfgXorm)] []).trace ++
          (db.bootEntry wXorm false
            (db.MustBootUpXORM wXorm false [("a", cfgXorm)] []).reg "a" cfgXorm).trace,
        some (.dupName "a")⟩ ∧
     lookupReg (db.bootEntry wXorm false [("a", ⟨1⟩)] "a" cfgXorm).reg "a" =
       some ⟨1⟩) :=
  ⟨⟨by decide,
    C1_bootup_fail_fast_no_rollback.1 wMongo dlSome [("a", cfgMongo)]
      [("b", cfgMongo)] "a" cfgMongo [] (.dupName "a") (by decide) (by decide) (by decide),
    (C1_bootup_fail_fast_no_rollback.2.1 wMongo dlSome [("a", ⟨1⟩)] "a" cfgMongo
      ⟨1⟩ ⟨1⟩ (by decide) (Or.inl (by decide)) (by decide) (by decide)).2⟩,
   ⟨by decide,
    C1_bootup_fail_fast_no_rollback.2.2.1 wRedis dlSome [("a", cfgRedis)]
      [("b", cfgRedis)] "a" cfgRedis [] (.dupName "a") (by decide) (by decide) (by decide),
    (C1_bootup_fail_fast_no_rollback.2.2.2.1 wRedis dlSome [("a", ⟨1⟩)] "a" cfgRedis
      ⟨1⟩ (by decide) (by decide)).2⟩,
   ⟨by decide,
    C1_bootup_fail_fast_no_rollback.2.2.2.2.1 wXorm false [("a", cfgXorm)]
      [("b", cfgXorm)] "a" cfgXorm [] (.dupName "a") (by decide) (by decide),
    (C1_bootup_fail_fast_no_rollback.2.2.2.2.2 wXorm false [("a", ⟨1⟩)] "a" cfgXorm
      ⟨1⟩ ⟨1⟩ [] ⟨1⟩ (by decide) (by decide) (by decide) (by decide) (by decide)).2⟩⟩

/-- C2: RunTransaction looks the handle up by name and propagates the
not-found error for an unknown name; for the relational backend, a failing
work function triggers a rollback and its error is returned to the caller
unchanged, and a succeeding work function triggers a commit whose result —
including a commit failure — is returned to the caller. -/
theorem C2_run_transaction_semantics :
    (∀ (reg : Registry redis.UniversalClient)
       (txp : redis.UniversalClient → Option GoErr) (n : String),
       lookupReg reg n = none → redis.Transaction reg txp n = some (.notFound n)) ∧
    (∀ (reg : Registry db.EngineGroup) (sw : db.SessionWorld) (n : String)
       (work : db.WorkRes),
       lookupReg reg n = none →
       db.Transaction reg sw n work = (.ret (some (.notFound n)), [])) ∧
    (∀ (reg : Registry db.EngineGroup) (sw : db.SessionWorld) (n : String)
       (g : db.EngineGroup) (e : GoErr),
       lookupReg reg n = some g → sw.beginRes = none →
       db.Transaction reg sw n (.fail e) =
         (.ret (some e),
          [.newSession, .beginTx, .workCalled, .rollback, .closeSession])) ∧
    (∀ (reg : Registry db.EngineGroup) (sw : db.SessionWorld) (n : String)
       (g : db.EngineGroup),
       lookupReg reg n = some g → sw.beginRes = none →
       db.Transaction reg sw n .ok =
         (.ret sw.commitRes,
          [.newSession, .beginTx, .workCalled, .commitTx, .closeSession])) := by
  refine ⟨?_, ?_, ?_, ?_⟩
  · intro reg txp n hl
    unfold redis.Transaction
    rw [hl]
  · intro reg sw n work hl
    unfold db.Transaction
    rw [hl]
  · intro reg sw n g e hl hb
    unfold db.Transaction
    rw [hl, hb]
  · intro reg sw n g hl hb
    unfold db.Transaction
    rw [hl, hb]

/-- Witness for C2: on a registry holding only `a`, looking up `x` fails
with the not-found error; on `a`, a failing work function rolls back and
returns its error, and a succeeding one commits and returns the (failing)
commit result. -/
theorem C2_witness :
    (lookupReg ([("a", (⟨1⟩ : redis.UniversalClient))]) "x" = none ∧
     redis.Transaction [("a", ⟨1⟩)] (fun _ => none) "x" = some (.notFound "x")) ∧
    (lookupReg ([("a", (⟨1⟩ : db.EngineGroup))]) "x" = none ∧
     db.Transaction [("a", ⟨1⟩)] ⟨none, none, none, none⟩ "x" .ok =
       (.ret (some (.notFound "x")), [])) ∧
    (db.Transaction [("a", (⟨1⟩ : db.EngineGroup))] ⟨none, none, none, none⟩ "a"
        (.fail (.userErr 7)) =
      (.ret (some (.userErr 7)),
       [.newSession, .beginTx, .workCalled, .rollback, .closeSession])) ∧
    (db.Transaction [("a", (⟨1⟩ : db.EngineGroup))]
        ⟨none, some .commitFailed, none, none⟩ "a" .ok =
      (.ret (some .commitFailed),
       [.newSession, .beginTx, .workCalled, .commitTx, .closeSession])) :=
  ⟨⟨by decide, C2_run_transaction_semantics.1 [("a", ⟨1⟩)] (fun _ => none) "x" (by decide)⟩,
   ⟨by decide, C2_run_transaction_semantics.2.1 [("a", ⟨1⟩)] ⟨none, none, none, none⟩
      "x" .ok (by decide)⟩,
   C2_run_transaction_semantics.2.2.1 [("a", ⟨1⟩)] ⟨none, none, none, none⟩ "a" ⟨1⟩
     (.userErr 7) (by decide) (by decide),
   C2_run_transaction_semantics.2.2.2 [("a", ⟨1⟩)]
     ⟨none, some .commitFailed, none, none⟩ "a" ⟨1⟩ (by decide) (by decide)⟩

/-- C5: once the relational Transaction has obtained a session (the name
resolved), the session is closed on every exit path — begin failure, work
error, panic inside the work function, successful commit, and commit
failure — and the close is the last session call performed. -/
theorem C5_session_closed_every_path :
    ∀ (reg : Registry db.EngineGroup) (sw : db.SessionWorld) (n : String)
      (work : db.WorkRes) (g : db.EngineGroup),
      lookupReg reg n = some g →
      db.TxEvent.closeSession ∈ (db.Transaction reg sw n work).2 ∧
      (db.Transaction reg sw n work).2.getLast? = some .closeSession := by
  intro reg sw n work g hl
  unfold db.Transaction
  rw [hl]
  cases hb : sw.beginRes <;> cases work <;> simp

/-- Witness for C5: on a registry holding `a`, the session is closed (last)
for a work function that panics, under a failing commit. -/
theorem C5_witness :
    lookupReg ([("a", (⟨1⟩ : db.EngineGroup))]) "a" = some ⟨1⟩ ∧
    db.TxEvent.closeSession ∈
      (db.Transaction [("a", ⟨1⟩)] ⟨none, some .commitFailed, none, none⟩ "a" .panics).2 ∧
    (db.Transaction [("a", ⟨1⟩)] ⟨none, some .commitFailed, none, none⟩ "a"
        .panics).2.getLast? = some .closeSession :=
  ⟨by decide,
   (C5_session_closed_every_path [("a", ⟨1⟩)] ⟨none, some .commitFailed, none, none⟩
     "a" .panics ⟨1⟩ (by decide)).1,
   (C5_session_closed_every_path [("a", ⟨1⟩)] ⟨none, some .commitFailed, none, none⟩
     "a" .panics ⟨1⟩ (by decide)).2⟩

/-- C10: when opening the transactional scope fails (`session.Begin` errors),
the work function is never invoked, no commit or rollback is attempted, the
begin error is returned to the caller, and the session is still closed. -/
theorem C10_begin_failure_short_circuits :
    ∀ (reg : Registry db.EngineGroup) (sw : db.SessionWorld) (n : String)
      (work : db.WorkRes) (g : db.EngineGroup) (e : GoErr),
      lookupReg reg n = some g → sw.beginRes = some e →
      db.Transaction reg sw n work = (.ret (some e), [.newSession, .beginTx, .closeSession]) ∧
      db.TxEvent.workCalled ∉ (db.Transaction reg sw n work).2 ∧
      db.TxEvent.rollback ∉ (db.Transaction reg sw n work).2 ∧
      db.TxEvent.commitTx ∉ (db.Transaction reg sw n work).2 := by
  intro reg sw n work g e hl hb
  unfold db.Transaction
  rw [hl, hb]
  refine ⟨rfl, ?_, ?_, ?_⟩ <;> simp

/-- Witness for C10: a failing begin on a registry holding `a` returns the
begin error with only open/begin/close session activity. -/
theorem C10_witness :
    lookupReg ([("a", (⟨1⟩ : db.EngineGroup))]) "a" = some ⟨1⟩ ∧
    db.Transaction [("a", ⟨1⟩)] ⟨some .beginFailed, none, none, none⟩ "a"
        (.fail (.userErr 3)) =
      (.ret (some .beginFailed), [.newSession, .beginTx, .closeSession]) :=
  ⟨by decide,
   (C10_begin_failure_short_circuits [("a", ⟨1⟩)] ⟨some .beginFailed, none, none, none⟩
     "a" (.fail (.userErr 3)) ⟨1⟩ .beginFailed (by decide) (by decide)).1⟩

/-- C8: for every backend, lookup of an unregistered name returns a nil
handle together with the not-found error (no panic is possible: the model
is total), and lookup of a registered name returns exactly the stored
handle with no error. -/
theorem C8_lookup_contract :
    (∀ (reg : Registry mongo.Client) (n : String),
       (lookupReg reg n = none → mongo.GetClient reg n = (none, some (.notFound n))) ∧
       (∀ h : mongo.Client, lookupReg reg n = some h →
         mongo.GetClient reg n = (some h, none))) ∧
    (∀ (reg : Registry redis.UniversalClient) (n : String),
       (lookupReg reg n = none → redis.GetRedis reg n = (none, some (.notFound n))) ∧
       (∀ h : redis.UniversalClient, lookupReg reg n = some h →
         redis.GetRedis reg n = (some h, none))) ∧
    (∀ (reg : Registry db.EngineGroup) (n : String),
       (lookupReg reg n = none → db.get reg n = (none, some (.notFound n))) ∧
       (∀ h : db.EngineGroup, lookupReg reg n = some h →
         db.get reg n = (some h, none))) := by
  refine ⟨?_, ?_, ?_⟩
  · exact fun reg n =>
      ⟨fun hl => by unfold mongo.GetClient; rw [hl],
       fun h hl => by unfold mongo.GetClient; rw [hl]⟩
  · exact fun reg n =>
      ⟨fun hl => by unfold redis.GetRedis; rw [hl],
       fun h hl => by unfold redis.GetRedis; rw [hl]⟩
  · exact fun reg n =>
      ⟨fun hl => by unfold db.get; rw [hl],
       fun h hl => by unfold db.get; rw [hl]⟩

/-- Witness for C8: on registries holding only `a`, looking up `x` yields
nil plus the not-found error and looking up `a` yields the stored handle. -/
theorem C8_witness :
    (mongo.GetClient [("a", ⟨3⟩)] "x" = (none, some (.notFound "x")) ∧
     mongo.GetClient [("a", ⟨3⟩)] "a" = (some ⟨3⟩, none)) ∧
    (redis.GetRedis [("a", ⟨4⟩)] "x" = (none, some (.notFound "x")) ∧
     redis.GetRedis [("a", ⟨4⟩)] "a" = (some ⟨4⟩, none)) ∧
    (db.get [("a", ⟨5⟩)] "x" = (none, some (.notFound "x")) ∧
     db.get [("a", ⟨5⟩)] "a" = (some ⟨5⟩, none)) :=
  ⟨⟨(C8_lookup_contract.1 [("a", ⟨3⟩)] "x").1 (by decide),
    (C8_lookup_contract.1 [("a", ⟨3⟩)] "a").2 ⟨3⟩ (by decide)⟩,
   ⟨(C8_lookup_contract.2.1 [("a", ⟨4⟩)] "x").1 (by decide),
    (C8_lookup_contract.2.1 [("a", ⟨4⟩)] "a").2 ⟨4⟩ (by decide)⟩,
   ⟨(C8_lookup_contract.2.2 [("a", ⟨5⟩)] "x").1 (by decide),
    (C8_lookup_contract.2.2 [("a", ⟨5⟩)] "a").2 ⟨5⟩ (by decide)⟩⟩

/-- C9: when the default logger was never initialized via `logger.New`,
`Logger()` panics, so every front-door logging function panics, and the
Redis BootUp success path — which logs each successful connection — panics
instead of returning success. -/
theorem C9_uninitialized_logger_panics :
    logger.Logger none = .panicked "logger not initialized, call New first" ∧
    (∀ msg : String,
      logger.Info none msg = .panicked "logger not initialized, call New first" ∧
      logger.Debug none msg = .panicked "logger not initialized, call New first" ∧
      logger.Warn none msg = .panicked "logger not initialized, call New first" ∧
      logger.Error none msg = .panicked "logger not initialized, call New first") ∧
    (∀ (w : redis.World) (n : String) (c : redis.Config)
       (reg0 : Registry redis.UniversalClient),
       lookupReg reg0 n = none →
       w.ping (w.newClient (redis.clientOpts c)) = true →
       (redis.MustBootUpRedis w none [(n, c)] reg0).err =
         some (.panicked "logger not initialized, call New first")) := by
  refine ⟨rfl, fun msg => ⟨rfl, rfl, rfl, rfl⟩, ?_⟩
  intro w n c reg0 hl hp
  unfold redis.MustBootUpRedis
  simp only [bootLoop, redis.bootEntry, hp, if_true, hl, logger.Info, logger.Logger]

/-- Witness for C9: a single otherwise-successful Redis entry booted with
the facade uninitialized ends in the facade panic rather than success. -/
theorem C9_witness :
    lookupReg ([] : Registry redis.UniversalClient) "a" = none ∧
    wRedis.ping (wRedis.newClient (redis.clientOpts cfgRedis)) = true ∧
    (redis.MustBootUpRedis wRedis none [("a", cfgRedis)] []).err =
      some (.panicked "logger not initialized, call New first") :=
  ⟨by decide, by decide,
   C9_uninitialized_logger_panics.2.2 wRedis "a" cfgRedis [] (by decide) (by decide)⟩

/-- A Mongo world whose handle `1` is alive and whose handle `0` is dead
(its ping fails). -/
def wMongoDead : mongo.World :=
  { caOk := fun _ => true, connect := fun _ => some ⟨0⟩, ping := fun cl => cl.id == 1 }

/-- A Redis world whose handle `1` is alive and whose handle `0` is dead. -/
def wRedisDead : redis.World :=
  { newClient := fun _ => ⟨0⟩, ping := fun cl => cl.id == 1 }

/-- An XORM world whose engine group `1` is alive and whose engine group `0`
is dead. -/
def wXormDead : db.World :=
  { newEngine := fun _ _ => some ⟨1⟩, newEngineGroup := fun _ _ => some ⟨0⟩
  , ping := fun g => g.id == 1, syncRun := fun _ _ => true }

/-- C3: evaluation at the failing input.  With a dead handle registered
under `a` ahead of a live handle under `b`, one tick of the XORM health
monitor probes only `a`, logs once, and terminates the goroutine — the
monitor is no longer running at the next tick and `b` was never probed —
whereas the Mongo and Redis monitors on the same shape of registry probe
every handle, log the failure with the instance name, and keep running on
every subsequent tick. -/
theorem C3_xorm_monitor_stops_on_probe_failure :
    db.monitorTick wXormDead [("a", ⟨0⟩), ("b", ⟨1⟩)] =
      (["a"], [.fail "mysql ticker ping database fail" ""], .stops) ∧
    monitorRun (db.monitorTick wXormDead) [("a", ⟨0⟩), ("b", ⟨1⟩)] 1 = false ∧
    mongo.monitorTick wMongoDead dlSome [("a", ⟨0⟩), ("b", ⟨1⟩)] =
      (["a", "b"], [.fail "Mongo健康检查失败" "a"], .continues) ∧
    monitorRun (mongo.monitorTick wMongoDead dlSome) [("a", ⟨0⟩), ("b", ⟨1⟩)] 5 = true ∧
    redis.monitorTick wRedisDead dlSome [("a", ⟨0⟩), ("b", ⟨1⟩)] =
      (["a", "b"], [.fail "Redis连接检测失败" "a"], .continues) ∧
    monitorRun (redis.monitorTick wRedisDead dlSome) [("a", ⟨0⟩), ("b", ⟨1⟩)] 5 = true := by
  refine ⟨by decide, by decide, by decide, by decide, by decide, by decide⟩

/-- A boot loop whose first entry fails stops there, returning that error. -/
theorem bootLoop_cons_fail {H E T C : Type} (step : Registry H → String → C → StepRes H E T)
    (n : String) (c : C) (rest : List (String × C)) (reg0 : Registry H) (e : E)
    (h : (step reg0 n c).err = some e) :
    bootLoop step ((n, c) :: rest) reg0 =
      ⟨(step reg0 n c).reg, (step reg0 n c).trace, some e⟩ := by
  simp only [bootLoop, h]

/-- When the CA file (if any) loads, a Mongo boot entry is its post-options
part applied to the effective client options. -/
theorem mongo_bootEntry_eq_conn (w : mongo.World) (dl : Option logger.ZapLogger)
    (reg : Registry mongo.Client) (n : String) (cfg : mongo.Config)
    (hca : cfg.caCertFile = "" ∨ w.caOk cfg.caCertFile = true) :
    mongo.bootEntry w dl reg n cfg =
      mongo.bootEntryConn w dl reg n (mongo.effectiveOpts cfg) := by
  unfold mongo.bootEntry mongo.effectiveOpts
  by_cases hce : cfg.caCertFile = ""
  · simp [hce]
  · rcases hca with h | h
    · exact absurd h hce
    · simp [hce, h]

/-- Once `mongo.Connect` has succeeded, the 10-second-deadline probe is in
the entry's trace on every path. -/
theorem mongo_bootEntryConn_probe (w : mongo.World) (dl : Option logger.ZapLogger)
    (reg : Registry mongo.Client) (n : String) (opts : mongo.ClientOpts)
    (cl : mongo.Client) (hc : w.connect opts = some cl) :
    mongo.Eff.probe n (.seconds 10) ∈ (mongo.bootEntryConn w dl reg n opts).trace := by
  unfold mongo.bootEntryConn
  rw [hc]
  by_cases hp : w.ping cl = true
  · simp only [hp, if_true]
    cases hl : lookupReg reg n with
    | some h0 => simp
    | none => cases hi : logger.Info dl "Mongo连接成功" <;> simp
  · simp [hp]

/-- A failing ping fails a Mongo boot entry with the ping error. -/
theorem mongo_bootEntryConn_ping_fail (w : mongo.World) (dl : Option logger.ZapLogger)
    (reg : Registry mongo.Client) (n : String) (opts : mongo.ClientOpts)
    (cl : mongo.Client) (hc : w.connect opts = some cl) (hp : w.ping cl = false) :
    mongo.bootEntryConn w dl reg n opts =
      ⟨reg, [.connectCall n, .probe n (.seconds 10)], some (.pingFailed n)⟩ := by
  unfold mongo.bootEntryConn
  rw [hc]
  simp [hp]

/-- The no-deadline probe is in a Redis boot entry's trace on every path. -/
theorem redis_bootEntry_probe (w : redis.World) (dl : Option logger.ZapLogger)
    (reg : Registry redis.UniversalClient) (n : String) (c : redis.Config) :
    redis.Eff.probe n .unbounded ∈ (redis.bootEntry w dl reg n c).trace := by
  simp only [redis.bootEntry]
  by_cases hp : w.ping (w.newClient (redis.clientOpts c)) = true
  · simp only [hp, if_true]
    cases hl : lookupReg reg n with
    | some h0 => simp
    | none => cases hi : logger.Info dl "Redis连接成功" <;> simp
  · simp [hp]

/-- A failing ping fails a Redis boot entry with the ping error. -/
theorem redis_bootEntry_ping_fail (w : redis.World) (dl : Option logger.ZapLogger)
    (reg : Registry redis.UniversalClient) (n : String) (c : redis.Config)
    (hp : w.ping (w.newClient (redis.clientOpts c)) = false) :
    redis.bootEntry w dl reg n c =
      ⟨reg, [.newClientCall n (redis.clientOpts c), .probe n .unbounded],
       some (.pingFailed n)⟩ := by
  simp only [redis.bootEntry]
  simp [hp]

/-- Once all engines are constructed, the no-deadline probe is in an XORM
boot entry's trace on every path. -/
theorem db_bootEntry_probe (w : db.World) (syncSet : Bool)
    (reg : Registry db.EngineGroup) (n : String) (c : db.XORMConfigLite)
    (master : db.Engine) (slaves : List db.Engine) (g : db.EngineGroup)
    (hm : w.newEngine c.driver c.dsn = some master)
    (hs : db.connectSlaves w c.driver c.slave = some slaves)
    (hg : w.newEngineGroup master slaves = some g) :
    db.Eff.probe .unbounded ∈ (db.bootEntry w syncSet reg n c).trace := by
  unfold db.bootEntry
  simp only [hm, hs, hg]
  by_cases hp : w.ping g = true
  · simp only [hp, if_true]
    cases hl : lookupReg reg n with
    | some h0 => simp
    | none =>
      by_cases hsy : (syncSet = true ∧ c.synchronization = true ∧ w.syncRun n g = false) <;>
        simp [hsy]
  · simp [hp]

/-- A failing ping fails an XORM boot entry with the ping error. -/
theorem db_bootEntry_ping_fail (w : db.World) (syncSet : Bool)
    (reg : Registry db.EngineGroup) (n : String) (c : db.XORMConfigLite)
    (master : db.Engine) (slaves : List db.Engine) (g : db.EngineGroup)
    (hm : w.newEngine c.driver c.dsn = some master)
    (hs : db.connectSlaves w c.driver c.slave = some slaves)
    (hg : w.newEngineGroup master slaves = some g) (hp : w.ping g = false) :
    db.bootEntry w syncSet reg n c =
      ⟨reg, [.configure (db.xormPoolSettings c), .probe .unbounded],
       some .pingFailed⟩ := by
  unfold db.bootEntry
  simp only [hm, hs, hg]
  simp [hp]

/-- C4 counterexample: the claim's "bounded timeout of 10 seconds" is false
for the Redis and relational backends — booting one successful Redis entry
and one successful XORM entry issues each startup probe under the
background context (no deadline), which is not the 10-second deadline. -/
theorem C4_counterexample_probe_unbounded :
    redis.Eff.probe "r" .unbounded ∈
      (redis.MustBootUpRedis wRedis dlSome [("r", cfgRedis)] []).trace ∧
    db.Eff.probe .unbounded ∈
      (db.MustBootUpXORM wXorm false [("r", cfgXorm)] []).trace ∧
    ProbeDeadline.unbounded ≠ ProbeDeadline.seconds 10 := by
  refine ⟨by decide, by decide, by decide⟩

/-- C4 (amended): the Mongo startup probe is issued under the 10-second
`context.WithTimeout` deadline, while the Redis and relational startup
probes are issued with no explicit deadline; in every backend a failed
probe fails that entry, making BootUp return the ping error. -/
theorem C4_probe_deadline_and_ping_failure :
    (∀ (w : mongo.World) (dl : Option logger.ZapLogger) (reg0 : Registry mongo.Client)
       (rest : List (String × mongo.Config)) (n : String) (cfg : mongo.Config)
       (cl : mongo.Client),
       (cfg.caCertFile = "" ∨ w.caOk cfg.caCertFile = true) →
       w.connect (mongo.effectiveOpts cfg) = some cl →
       mongo.Eff.probe n (.seconds 10) ∈ (mongo.bootEntry w dl reg0 n cfg).trace ∧
       (w.ping cl = false →
         (mongo.MustBootUpMongo w dl ((n, cfg) :: rest) reg0).err =
           some (.pingFailed n))) ∧
    (∀ (w : redis.World) (dl : Option logger.ZapLogger)
       (reg0 : Registry redis.UniversalClient) (rest : List (String × redis.Config))
       (n : String) (c : redis.Config),
       redis.Eff.probe n .unbounded ∈ (redis.bootEntry w dl reg0 n c).trace ∧
       (w.ping (w.newClient (redis.clientOpts c)) = false →
         (redis.MustBootUpRedis w dl ((n, c) :: rest) reg0).err =
           some (.pingFailed n))) ∧
    (∀ (w : db.World) (syncSet : Bool) (reg0 : Registry db.EngineGroup)
       (rest : List (String × db.XORMConfigLite)) (n : String)
       (c : db.XORMConfigLite) (master : db.Engine) (slaves : List db.Engine)
       (g : db.EngineGroup),
       w.newEngine c.driver c.dsn = some master →
       db.connectSlaves w c.driver c.slave = some slaves →
       w.newEngineGroup master slaves = some g →
       db.Eff.probe .unbounded ∈ (db.bootEntry w syncSet reg0 n c).trace ∧
       (w.ping g = false →
         (db.MustBootUpXORM w syncSet ((n, c) :: rest) reg0).err =
           some .pingFailed)) := by
  refine ⟨?_, ?_, ?_⟩
  · intro w dl reg0 rest n cfg cl hca hc
    rw [mongo_bootEntry_eq_conn w dl reg0 n cfg hca]
    refine ⟨mongo_bootEntryConn_probe w dl reg0 n _ cl hc, fun hp => ?_⟩
    unfold mongo.MustBootUpMongo
    rw [bootLoop_cons_fail (mongo.bootEntry w dl) n cfg rest reg0 (.pingFailed n) ?_]
    rw [mongo_bootEntry_eq_conn w dl reg0 n cfg hca,
      mongo_bootEntryConn_ping_fail w dl reg0 n _ cl hc hp]
  · intro w dl reg0 rest n c
    refine ⟨redis_bootEntry_probe w dl reg0 n c, fun hp => ?_⟩
    unfold redis.MustBootUpRedis
    rw [bootLoop_cons_fail (redis.bootEntry w dl) n c rest reg0 (.pingFailed n)
      (by rw [redis_bootEntry_ping_fail w dl reg0 n c hp])]
  · intro w syncSet reg0 rest n c master slaves g hm hs hg
    refine ⟨db_bootEntry_probe w syncSet reg0 n c master slaves g hm hs hg,
      fun hp => ?_⟩
    unfold db.MustBootUpXORM
    rw [bootLoop_cons_fail (db.bootEntry w syncSet) n c rest reg0 .pingFailed
      (by rw [db_bootEntry_ping_fail w syncSet reg0 n c master slaves g hm hs hg hp])]

/-- Witness for C4: with dead handles, each backend's single-entry boot
fails with its ping error, the Mongo probe carrying the 10-second deadline
and the other two no deadline. -/
theorem C4_witness :
    (mongo.Eff.probe "a" (.seconds 10) ∈
       (mongo.bootEntry wMongoDead dlSome [] "a" cfgMongo).trace ∧
     (mongo.MustBootUpMongo wMongoDead dlSome [("a", cfgMongo)] []).err =
       some (.pingFailed "a")) ∧
    (redis.Eff.probe "a" .unbounded ∈
       (redis.bootEntry wRedisDead dlSome [] "a" cfgRedis).trace ∧
     (redis.MustBootUpRedis wRedisDead dlSome [("a", cfgRedis)] []).err =
       some (.pingFailed "a")) ∧
    (db.Eff.probe .unbounded ∈
       (db.bootEntry wXormDead false [] "a" cfgXorm).trace ∧
     (db.MustBootUpXORM wXormDead false [("a", cfgXorm)] []).err = some .pingFailed) :=
  ⟨⟨(C4_probe_deadline_and_ping_failure.1 wMongoDead dlSome [] [] "a" cfgMongo ⟨0⟩
      (Or.inl (by decide)) (by decide)).1,
    (C4_probe_deadline_and_ping_failure.1 wMongoDead dlSome [] [] "a" cfgMongo ⟨0⟩
      (Or.inl (by decide)) (by decide)).2 (by decide)⟩,
   ⟨(C4_probe_deadline_and_ping_failure.2.1 wRedisDead dlSome [] [] "a" cfgRedis).1,
    (C4_probe_deadline_and_ping_failure.2.1 wRedisDead dlSome [] [] "a" cfgRedis).2
      (by decide)⟩,
   ⟨(C4_probe_deadline_and_ping_failure.2.2 wXormDead false [] [] "a" cfgXorm ⟨1⟩ [] ⟨0⟩
      (by decide) (by decide) (by decide)).1,
    (C4_probe_deadline_and_ping_failure.2.2 wXormDead false [] [] "a" cfgXorm ⟨1⟩ [] ⟨0⟩
      (by decide) (by decide) (by decide)).2 (by decide)⟩⟩

/-- `ShutdownMongo` with the facade initialized: attempts every close in
map order, never panics, deletes nothing, and logs every close failure. -/
theorem mongo_shutdown_spec (l : logger.ZapLogger) (closeOk : mongo.Client → Bool) :
    ∀ reg : Registry mongo.Client,
      (mongo.ShutdownMongo (some l) closeOk reg).attempted = reg.map Prod.fst ∧
      (mongo.ShutdownMongo (some l) closeOk reg).panicked = false ∧
      (mongo.ShutdownMongo (some l) closeOk reg).reg = reg ∧
      (∀ (n : String) (h : mongo.Client), (n, h) ∈ reg → closeOk h = false →
        LogEvent.fail "Mongo 关闭失败" n ∈ (mongo.ShutdownMongo (some l) closeOk reg).logs) := by
  intro reg
  induction reg with
  | nil => simp [mongo.ShutdownMongo]
  | cons p rest ih =>
    obtain ⟨n, cl⟩ := p
    unfold mongo.ShutdownMongo
    by_cases hok : closeOk cl = true
    · simp only [hok, if_true]
      refine ⟨by simp [ih.1], ih.2.1, by simp [ih.2.2.1], ?_⟩
      intro m h hmem hcl
      rcases List.mem_cons.mp hmem with heq | hmem2
      · cases heq
        rw [hok] at hcl
        cases hcl
      · exact ih.2.2.2 m h hmem2 hcl
    · have hok' : closeOk cl = false := by simpa using hok
      simp only [hok', Bool.false_eq_true, if_false, logger.Error, logger.Logger]
      refine ⟨by simp [ih.1], ih.2.1, by simp [ih.2.2.1], ?_⟩
      intro m h hmem hcl
      rcases List.mem_cons.mp hmem with heq | hmem2
      · cases heq
        exact List.mem_cons_self _ _
      · exact List.mem_cons_of_mem _ (ih.2.2.2 m h hmem2 hcl)

/-- `ShutdownRedis`: attempts every close in map order, never panics,
deletes nothing, and prints every close failure. -/
theorem redis_shutdown_spec (closeOk : redis.UniversalClient → Bool) :
    ∀ reg : Registry redis.UniversalClient,
      (redis.ShutdownRedis closeOk reg).attempted = reg.map Prod.fst ∧
      (redis.ShutdownRedis closeOk reg).panicked = false ∧
      (redis.ShutdownRedis closeOk reg).reg = reg ∧
      (∀ (n : String) (h : redis.UniversalClient), (n, h) ∈ reg → closeOk h = false →
        LogEvent.printLine "Redis关闭失败" n ∈ (redis.ShutdownRedis closeOk reg).logs) := by
  intro reg
  induction reg with
  | nil => simp [redis.ShutdownRedis]
  | cons p rest ih =>
    obtain ⟨n, cl⟩ := p
    unfold redis.ShutdownRedis
    by_cases hok : closeOk cl = true
    · simp only [hok, if_true]
      refine ⟨by simp [ih.1], by trivial, by simp [ih.2.2.1], ?_⟩
      intro m h hmem hcl
      rcases List.mem_cons.mp hmem with heq | hmem2
      · cases heq
        rw [hok] at hcl
        cases hcl
      · exact ih.2.2.2 m h hmem2 hcl
    · have hok' : closeOk cl = false := by simpa using hok
      simp only [hok', Bool.false_eq_true, if_false]
      refine ⟨by simp [ih.1], by trivial, by simp [ih.2.2.1], ?_⟩
      intro m h hmem hcl
      rcases List.mem_cons.mp hmem with heq | hmem2
      · cases heq
        exact List.mem_cons_self _ _
      · exact List.mem_cons_of_mem _ (ih.2.2.2 m h hmem2 hcl)

/-- `ShutdownXorm`: attempts every close in map order, never panics,
deletes nothing — and emits no log at all, failing closes included. -/
theorem db_shutdown_spec (closeOk : db.EngineGroup → Bool) :
    ∀ reg : Registry db.EngineGroup,
      (db.ShutdownXorm closeOk reg).attempted = reg.map Prod.fst ∧
      (db.ShutdownXorm closeOk reg).panicked = false ∧
      (db.ShutdownXorm closeOk reg).reg = reg ∧
      (db.ShutdownXorm closeOk reg).logs = [] := by
  intro reg
  induction reg with
  | nil => simp [db.ShutdownXorm]
  | cons p rest ih =>
    obtain ⟨n, g⟩ := p
    unfold db.ShutdownXorm
    by_cases hok : closeOk g = true
    · simp only [hok, if_true]
      exact ⟨by simp [ih.1], by trivial, by simp [ih.2.2.1], ih.2.2.2⟩
    · have hok' : closeOk g = false := by simpa using hok
      simp only [hok', Bool.false_eq_true, if_false]
      exact ⟨by simp [ih.1], by trivial, by simp [ih.2.2.1], ih.2.2.2⟩

/-- C6 counterexample: the claim's "individual close failures are logged"
is false for the relational backend — `ShutdownXorm` over a registry whose
only close fails attempts the close but produces no log output. -/
theorem C6_counterexample_xorm_close_not_logged :
    (db.ShutdownXorm (fun _ => false) [("a", ⟨1⟩)]).attempted = ["a"] ∧
    (db.ShutdownXorm (fun _ => false) [("a", ⟨1⟩)]).logs = [] := by
  refine ⟨by decide, by decide⟩

/-- C6 (amended): every backend's Shutdown attempts to close all N handles
even when some closes fail, propagates nothing, and removes no registry
entry; close failures are logged by the Mongo backend (through the
initialized facade) and printed by the Redis backend, while the relational
backend ignores them silently. -/
theorem C6_shutdown_best_effort :
    (∀ (l : logger.ZapLogger) (closeOk : mongo.Client → Bool) (reg : Registry mongo.Client),
       (mongo.ShutdownMongo (some l) closeOk reg).attempted = reg.map Prod.fst ∧
       (mongo.ShutdownMongo (some l) closeOk reg).panicked = false ∧
       (mongo.ShutdownMongo (some l) closeOk reg).reg = reg ∧
       (∀ (n : String) (h : mongo.Client), (n, h) ∈ reg → closeOk h = false →
         LogEvent.fail "Mongo 关闭失败" n ∈ (mongo.ShutdownMongo (some l) closeOk reg).logs)) ∧
    (∀ (closeOk : redis.UniversalClient → Bool) (reg : Registry redis.UniversalClient),
       (redis.ShutdownRedis closeOk reg).attempted = reg.map Prod.fst ∧
       (redis.ShutdownRedis closeOk reg).panicked = false ∧
       (redis.ShutdownRedis closeOk reg).reg = reg ∧
       (∀ (n : String) (h : redis.UniversalClient), (n, h) ∈ reg → closeOk h = false →
         LogEvent.printLine "Redis关闭失败" n ∈ (redis.ShutdownRedis closeOk reg).logs)) ∧
    (∀ (closeOk : db.EngineGroup → Bool) (reg : Registry db.EngineGroup),
       (db.ShutdownXorm closeOk reg).attempted = reg.map Prod.fst ∧
       (db.ShutdownXorm closeOk reg).panicked = false ∧
       (db.ShutdownXorm closeOk reg).reg = reg ∧
       (db.ShutdownXorm closeOk reg).logs = []) :=
  ⟨fun l closeOk reg => mongo_shutdown_spec l closeOk reg,
   fun closeOk reg => redis_shutdown_spec closeOk reg,
   fun closeOk reg => db_shutdown_spec closeOk reg⟩

/-- Witness for C6: shutting down a two-entry registry whose first handle
fails to close attempts both closes, panics nowhere, deletes nothing, and
logs (Mongo), prints (Redis), or stays silent (relational). -/
theorem C6_witness :
    ((mongo.ShutdownMongo (some ⟨0⟩) (fun cl => cl.id == 1)
        [("a", ⟨0⟩), ("b", ⟨1⟩)]).attempted = ["a", "b"] ∧
     (mongo.ShutdownMongo (some ⟨0⟩) (fun cl => cl.id == 1)
        [("a", ⟨0⟩), ("b", ⟨1⟩)]).reg = [("a", ⟨0⟩), ("b", ⟨1⟩)] ∧
     LogEvent.fail "Mongo 关闭失败" "a" ∈
       (mongo.ShutdownMongo (some ⟨0⟩) (fun cl => cl.id == 1)
         [("a", ⟨0⟩), ("b", ⟨1⟩)]).logs) ∧
    ((redis.ShutdownRedis (fun cl => cl.id == 1)
        [("a", ⟨0⟩), ("b", ⟨1⟩)]).attempted = ["a", "b"] ∧
     LogEvent.printLine "Redis关闭失败" "a" ∈
       (redis.ShutdownRedis (fun cl => cl.id == 1) [("a", ⟨0⟩), ("b", ⟨1⟩)]).logs) ∧
    ((db.ShutdownXorm (fun g => g.id == 1) [("a", ⟨0⟩), ("b", ⟨1⟩)]).attempted =
       ["a", "b"] ∧
     (db.ShutdownXorm (fun g => g.id == 1) [("a", ⟨0⟩), ("b", ⟨1⟩)]).logs = []) :=
  ⟨⟨(C6_shutdown_best_effort.1 ⟨0⟩ (fun cl => cl.id == 1) [("a", ⟨0⟩), ("b", ⟨1⟩)]).1,
    (C6_shutdown_best_effort.1 ⟨0⟩ (fun cl => cl.id == 1) [("a", ⟨0⟩), ("b", ⟨1⟩)]).2.2.1,
    (C6_shutdown_best_effort.1 ⟨0⟩ (fun cl => cl.id == 1)
      [("a", ⟨0⟩), ("b", ⟨1⟩)]).2.2.2 "a" ⟨0⟩ (by decide) (by decide)⟩,
   ⟨(C6_shutdown_best_effort.2.1 (fun cl => cl.id == 1) [("a", ⟨0⟩), ("b", ⟨1⟩)]).1,
    (C6_shutdown_best_effort.2.1 (fun cl => cl.id == 1)
      [("a", ⟨0⟩), ("b", ⟨1⟩)]).2.2.2 "a" ⟨0⟩ (by decide) (by decide)⟩,
   ⟨(C6_shutdown_best_effort.2.2 (fun g => g.id == 1) [("a", ⟨0⟩), ("b", ⟨1⟩)]).1,
    (C6_shutdown_best_effort.2.2 (fun g => g.id == 1) [("a", ⟨0⟩), ("b", ⟨1⟩)]).2.2.2⟩⟩

/-- A standalone Redis configuration with negative pool bounds. -/
def cfgRedisNeg : redis.Config :=
  { mode := "", addr := "127.0.0.1:6379", password := "", db := 0, masterName := ""
  , slaves := [], poolSize := -2, minIdle := -3 }

/-- C7 counterexample: the claim's "a zero or negative value leaves the
library default in effect" is false for the Redis backend — it fills the
option struct's pool fields unconditionally, so a negative configured value
ends up in the options instead of the Go zero value `0` under which the
library would apply its default. -/
theorem C7_counterexample_redis_negative_pool :
    (redis.clientOpts cfgRedisNeg).poolSize = -2 ∧
    (redis.clientOpts cfgRedisNeg).minIdleConns = -3 ∧
    ((-2 : Int) ≤ 0 ∧ (-2 : Int) ≠ 0) ∧ ((-3 : Int) ≤ 0 ∧ (-3 : Int) ≠ 0) := by
  refine ⟨by decide, by decide, by decide, by decide⟩

/-- C7 (amended): the Mongo and relational backends apply a pool-bound
setting only when its configured value is positive, a zero (or, for the
relational backend, negative) value leaving the library default in effect;
the Redis backend copies the configured pool size and min-idle into the
client options unconditionally in every mode, so only the zero value
coincides with the library default and a negative value is passed through. -/
theorem C7_pool_bounds_gating :
    (∀ cfg : mongo.Config,
       (0 < cfg.maxPoolSize →
         (mongo.baseClientOpts cfg).maxPoolSize = some cfg.maxPoolSize) ∧
       (cfg.maxPoolSize = 0 → (mongo.baseClientOpts cfg).maxPoolSize = none) ∧
       (0 < cfg.minPoolSize →
         (mongo.baseClientOpts cfg).minPoolSize = some cfg.minPoolSize) ∧
       (cfg.minPoolSize = 0 → (mongo.baseClientOpts cfg).minPoolSize = none)) ∧
    (∀ c : db.XORMConfigLite,
       (0 < c.maxIdle → (db.xormPoolSettings c).maxIdleConns = some c.maxIdle) ∧
       (c.maxIdle ≤ 0 → (db.xormPoolSettings c).maxIdleConns = none) ∧
       (0 < c.maxOpen → (db.xormPoolSettings c).maxOpenConns = some c.maxOpen) ∧
       (c.maxOpen ≤ 0 → (db.xormPoolSettings c).maxOpenConns = none) ∧
       (0 < c.maxLife → (db.xormPoolSettings c).connMaxLifetimeMs = some c.maxLife) ∧
       (c.maxLife ≤ 0 → (db.xormPoolSettings c).connMaxLifetimeMs = none)) ∧
    (∀ c : redis.Config,
       (redis.clientOpts c).poolSize = c.poolSize ∧
       (redis.clientOpts c).minIdleConns = c.minIdle) := by
  refine ⟨?_, ?_, ?_⟩
  · intro cfg
    unfold mongo.baseClientOpts
    refine ⟨fun h => ?_, fun h => ?_, fun h => ?_, fun h => ?_⟩ <;> simp [h]
  · intro c
    unfold db.xormPoolSettings
    exact ⟨fun h => by simp [h], fun h => by simp [show ¬ 0 < c.maxIdle by omega],
           fun h => by simp [h], fun h => by simp [show ¬ 0 < c.maxOpen by omega],
           fun h => by simp [h], fun h => by simp [show ¬ 0 < c.maxLife by omega]⟩
  · intro c
    unfold redis.clientOpts
    by_cases h1 : c.mode = redis.SENTINEL
    · rw [if_pos h1]
      exact ⟨rfl, rfl⟩
    · rw [if_neg h1]
      by_cases h2 : c.mode = redis.CLUSTER
      · rw [if_pos h2]
        exact ⟨rfl, rfl⟩
      · rw [if_neg h2]
        exact ⟨rfl, rfl⟩

/-- Witness for C7: a positive bound is applied and a zero bound leaves the
default for Mongo and XORM; Redis copies the configured values through. -/
theorem C7_witness :
    ((mongo.baseClientOpts { cfgMongo with maxPoolSize := 7 }).maxPoolSize = some 7 ∧
     (mongo.baseClientOpts cfgMongo).maxPoolSize = none) ∧
    ((db.xormPoolSettings { cfgXorm with maxIdle := 5 }).maxIdleConns = some 5 ∧
     (db.xormPoolSettings { cfgXorm with maxIdle := -4 }).maxIdleConns = none) ∧
    ((redis.clientOpts cfgRedis).poolSize = 0 ∧
     (redis.clientOpts { cfgRedis with poolSize := 9 }).poolSize = 9) :=
  ⟨⟨(C7_pool_bounds_gating.1 { cfgMongo with maxPoolSize := 7 }).1 (by decide),
    (C7_pool_bounds_gating.1 cfgMongo).2.1 (by decide)⟩,
   ⟨(C7_pool_bounds_gating.2.1 { cfgXorm with maxIdle := 5 }).1 (by decide),
    (C7_pool_bounds_gating.2.1 { cfgXorm with maxIdle := -4 }).2.1 (by decide)⟩,
   ⟨(C7_pool_bounds_gating.2.2 cfgRedis).1,
    (C7_pool_bounds_gating.2.2 { cfgRedis with poolSize := 9 }).1⟩⟩
